import Mathlib

/-!
Shallow embedding of `src/script.js` (class `MediaDownloader`) — the download
orchestration and status-polling engine of the maxthdownloader site.

The JavaScript is single-threaded with suspension only at `await` points, so
stateful methods are embedded as pure functions from their inputs (DOM reads,
scripted network responses) to their observable outputs (status-log events,
the downloads list, DOM writes).  Host builtins used by the code
(`JSON.parse`, `encodeURIComponent`, `String.prototype.trim`,
`String.prototype.toUpperCase`) are embedded alongside, faithful to their
ECMAScript behaviour on the inputs the program feeds them.
-/

namespace MediaDownloader

/-- Severity of a status-log line, the second argument of `logStatus`
(`script.js:215`): `'info' | 'success' | 'error'`. -/
inductive Severity where
  | info
  | success
  | error
deriving DecidableEq, Repr

/-- One appended status-log line: the `message` and `type` arguments of
`logStatus` (`script.js:215-222`).  The log is append-only; models collect
the emitted events in order. -/
structure StatusEvent where
  message : String
  severity : Severity
deriving DecidableEq, Repr

/-- The object pushed into `this.downloads` by `pollDownloadStatus`
(`script.js:131-138`): `{title, platform, url, outputPath, files, timestamp}`.
`outputPath` is `status.output_path`, which the backend may omit
(JS `undefined`), hence `Option`. -/
structure DownloadData where
  title : String
  platform : String
  url : String
  outputPath : Option String
  files : List String
  timestamp : String
deriving DecidableEq, Repr

/-- The parsed JSON body of a `GET /status/{id}` response as read by
`pollDownloadStatus` (`script.js:125-146`): fields `status`, `title`,
`output_path`, `files`, `error`, each of the last four possibly absent. -/
structure StatusResponse where
  status : String
  title : Option String
  output_path : Option String
  files : Option (List String)
  error : Option String
deriving DecidableEq, Repr

/-- Outcome of one `fetch` of `/status/{id}` followed by `response.json()`
inside the poll loop's `try` (`script.js:124-125`): either a parsed body, or
a rejection (transport failure or malformed JSON) carrying `error.message`. -/
inductive FetchResult where
  | ok (body : StatusResponse)
  | fail (msg : String)
deriving DecidableEq, Repr

/-- Outcome of the `POST /download` submission step of `simulateDownload`
(`script.js:102-111`): a `download_id` on a 2xx response, the body's `error`
field on a non-2xx response (rethrown as `new Error(data.error)`), or a
rejected fetch / malformed body carrying `error.message`. -/
inductive SubmitResult where
  | ok (downloadId : String)
  | httpError (errField : Option String)
  | netFail (msg : String)
deriving DecidableEq, Repr

/-! ## Host builtins -/

/-- ECMAScript `WhiteSpace` / `LineTerminator` characters, the set removed
from both ends by `String.prototype.trim` (used at `script.js:63`). -/
def jsIsWhitespace (c : Char) : Bool :=
  c = ' ' ∨ c = '\t' ∨ c = '\n' ∨ c = '\r' ∨ c.toNat = 0x0B ∨ c.toNat = 0x0C ∨
  c.toNat = 0xA0 ∨ c.toNat = 0x1680 ∨ (0x2000 ≤ c.toNat ∧ c.toNat ≤ 0x200A) ∨
  c.toNat = 0x2028 ∨ c.toNat = 0x2029 ∨ c.toNat = 0x202F ∨ c.toNat = 0x205F ∨
  c.toNat = 0x3000 ∨ c.toNat = 0xFEFF

/-- `String.prototype.trim`: strip leading and trailing JS whitespace. -/
def jsTrim (s : String) : String :=
  String.mk (((s.toList.dropWhile jsIsWhitespace).reverse.dropWhile
    jsIsWhitespace).reverse)

/-- `String.prototype.toUpperCase` (used at `script.js:146`), character by
character; platform identifiers are ASCII, where this matches JS. -/
def jsToUpperCase (s : String) : String :=
  String.mk (s.toList.map Char.toUpper)

/-! ## URL validation (`validateUrl`, `script.js:88-97`)

Each pattern in the `patterns` table is an unanchored alternation of string
literals (the only regex metacharacters are `\.`, `\/`, `(..|..)`), so
`pattern.test(url)` holds iff some alternative occurs in `url` as a
substring.  `List.isInfixOf` embeds that containment test. -/

/-- Is `pat` a prefix of `s` (as character lists)? -/
def charsPrefix : List Char → List Char → Bool
  | [], _ => true
  | _ :: _, [] => false
  | p :: ps, c :: cs => p = c && charsPrefix ps cs

/-- Does `pat` occur contiguously anywhere in `s`? -/
def charsContain (pat : List Char) : List Char → Bool
  | [] => charsPrefix pat []
  | c :: cs => charsPrefix pat (c :: cs) || charsContain pat cs

/-- Does `pat` occur as a contiguous substring of `s`?  Embeds
`RegExp.prototype.test` for a pattern that is a single string literal. -/
def strContains (s pat : String) : Bool :=
  charsContain pat.toList s.toList

/-- `validateUrl` (`script.js:88-97`): look up `this.currentPlatform` in the
`patterns` table and test the url; an unknown platform yields `false` via
`patterns[this.currentPlatform]?.test(url) || false`. -/
def validateUrl (currentPlatform url : String) : Bool :=
  if currentPlatform = "spotify" then
    strContains url "spotify.com/track" ∨ strContains url "spotify.com/album" ∨
      strContains url "spotify.com/playlist"
  else if currentPlatform = "youtube-audio" then
    strContains url "youtube.com/watch" ∨ strContains url "youtu.be/"
  else if currentPlatform = "youtube-video" then
    strContains url "youtube.com/watch" ∨ strContains url "youtu.be/"
  else if currentPlatform = "tiktok" then
    strContains url "tiktok.com"
  else if currentPlatform = "twitter" then
    strContains url "twitter.com" ∨ strContains url "x.com"
  else
    false

/-! ## History store (`addDownload`, `script.js:159-166`) -/

/-- `addDownload` (`script.js:159-166`): `unshift` the new record, truncate
with `slice(0, 10)` when the length exceeds 10, then write the whole list
back to `localStorage`.  Returns the new value of `this.downloads` (which is
also exactly what is persisted). -/
def addDownload (downloads : List DownloadData) (data : DownloadData) :
    List DownloadData :=
  let ds := data :: downloads
  if ds.length > 10 then ds.take 10 else ds

/-! ## Poll loop (`pollDownloadStatus`, `script.js:121-155`)

The `while (true)` loop suspends once per iteration on the status fetch, so
it is embedded as recursion over the finite script of fetch outcomes the
session will observe, one per iteration.  `new Date().toISOString()` is an
ambient clock read, passed in as the `ts` parameter. -/

/-- The `downloadData` object built in the `completed` branch
(`script.js:131-138`).  `status.title || 'Downloaded Media'` falls back when
`title` is absent *or* the empty string (both are falsy);
`status.files || []` falls back only when `files` is absent (`[]` is truthy
in JS, so an empty array is kept as is). -/
def buildDownloadData (currentPlatform url ts : String)
    (status : StatusResponse) : DownloadData :=
  { title := match status.title with
      | none => "Downloaded Media"
      | some t => if t = "" then "Downloaded Media" else t
    platform := currentPlatform
    url := url
    outputPath := status.output_path
    files := status.files.getD []
    timestamp := ts }

/-- Observable outcome of one run of the poll loop: the status events it
logged in order, the record handed to `addDownload` (if any), and whether
the loop has exited (`break`) — `finished = false` means the script of
responses ran out with the loop still awaiting the next fetch. -/
structure PollOutcome where
  events : List StatusEvent
  committed : Option DownloadData
  finished : Bool
deriving DecidableEq, Repr

/-- `pollDownloadStatus` (`script.js:121-155`) over a finite script of fetch
outcomes.  Per iteration: a rejected fetch logs
`Status check failed: ...` and breaks; `completed` logs two success lines,
builds the record and breaks; `error` logs `Error: ...` (the body's `error`
field, the string `undefined` when absent, as JS stringifies it) and breaks;
anything else logs `[PLATFORM] status` as info and loops. -/
def pollDownloadStatus (currentPlatform url ts : String) :
    List FetchResult → PollOutcome
  | [] => { events := [], committed := none, finished := false }
  | .fail msg :: _ =>
      { events := [⟨"Status check failed: " ++ msg, .error⟩]
        committed := none
        finished := true }
  | .ok body :: rest =>
      if body.status = "completed" then
        { events := [⟨"[SUCCESS] Download completed!", .success⟩,
                     ⟨"Files ready for download", .success⟩]
          committed := some (buildDownloadData currentPlatform url ts body)
          finished := true }
      else if body.status = "error" then
        { events := [⟨"Error: " ++ body.error.getD "undefined", .error⟩]
          committed := none
          finished := true }
      else
        let tail := pollDownloadStatus currentPlatform url ts rest
        { events :=
            ⟨"[" ++ jsToUpperCase currentPlatform ++ "] " ++ body.status,
              .info⟩ :: tail.events
          committed := tail.committed
          finished := tail.finished }

/-! ## One full submission (`startDownload` → `simulateDownload` → poll)

`startDownload` (`script.js:62-86`) reads and trims the input, rejects an
empty or invalid URL with a single error event, otherwise disables the
button and awaits `simulateDownload` (`script.js:99-119`), re-enabling the
button in `finally`.  `simulateDownload` posts the job and then awaits the
poll loop; both of its failure paths are caught internally and logged, so
`startDownload`'s own `catch` is unreachable. -/

/-- Observable result of one `startDownload` invocation: status events in
order, the resulting `this.downloads`, whether the input field was cleared,
whether any network request was issued, and whether the download button is
still disabled when the scripted responses are exhausted (`true` only when
the poll loop is still awaiting a fetch, since `finally` re-enables it as
soon as `simulateDownload` settles). -/
structure SessionResult where
  events : List StatusEvent
  downloads : List DownloadData
  urlCleared : Bool
  networkCalled : Bool
  btnStillDisabled : Bool
deriving DecidableEq, Repr

/-- `startDownload` (`script.js:62-86`) with `simulateDownload` and
`pollDownloadStatus` inlined, over a scripted submission outcome and a
scripted list of status-fetch outcomes.  `rawInput` is the value of the URL
input field; `downloads` is `this.downloads` before the call. -/
def startDownload (currentPlatform rawInput : String) (submit : SubmitResult)
    (responses : List FetchResult) (ts : String)
    (downloads : List DownloadData) : SessionResult :=
  let url := jsTrim rawInput
  if url = "" then
    { events := [⟨"Please enter a URL", .error⟩]
      downloads := downloads
      urlCleared := false
      networkCalled := false
      btnStillDisabled := false }
  else if ¬ validateUrl currentPlatform url then
    { events := [⟨"Invalid URL for selected platform", .error⟩]
      downloads := downloads
      urlCleared := false
      networkCalled := false
      btnStillDisabled := false }
  else
    match submit with
    | .netFail msg =>
        { events := [⟨"Error: " ++ msg, .error⟩]
          downloads := downloads
          urlCleared := false
          networkCalled := true
          btnStillDisabled := false }
    | .httpError errField =>
        -- `throw new Error(data.error)`: `new Error(undefined).message` is `""`.
        { events := [⟨"Error: " ++ errField.getD "", .error⟩]
          downloads := downloads
          urlCleared := false
          networkCalled := true
          btnStillDisabled := false }
    | .ok _ =>
        let out := pollDownloadStatus currentPlatform url ts responses
        { events := out.events
          downloads := match out.committed with
            | some d => addDownload downloads d
            | none => downloads
          urlCleared := out.committed.isSome
          networkCalled := true
          btnStillDisabled := ¬ out.finished }

/-! ## User entry points (`bindEvents`, `script.js:15-34`)

Two listeners invoke `startDownload`: a `click` listener on the download
button (`script.js:24-26`) and a `keypress` listener on the URL input that
fires on Enter (`script.js:29-33`).  To talk about overlapping sessions we
model the synchronous prefix of `startDownload` — everything up to its first
`await` (`script.js:63-79`): trim, the two rejection checks, then disabling
the button and launching `simulateDownload`.  `activeSessions` counts
launched `simulateDownload` calls that have not yet settled. -/

/-- The UI state the entry points interact with: whether the download button
is currently disabled, how many download sessions are in flight, and the
status events logged so far (newest last). -/
structure UiState where
  btnDisabled : Bool
  activeSessions : Nat
  log : List StatusEvent
deriving DecidableEq, Repr

/-- Synchronous prefix of `startDownload` (`script.js:62-79`): reject an
empty or invalid URL with one error event and no state change; otherwise
disable the button and launch a new download session. -/
def startDownloadEntry (currentPlatform rawInput : String) (s : UiState) :
    UiState :=
  let url := jsTrim rawInput
  if url = "" then
    { s with log := s.log ++ [⟨"Please enter a URL", .error⟩] }
  else if ¬ validateUrl currentPlatform url then
    { s with log := s.log ++ [⟨"Invalid URL for selected platform", .error⟩] }
  else
    { s with btnDisabled := true, activeSessions := s.activeSessions + 1 }

/-- The download button's `click` listener (`script.js:24-26`).  A disabled
button element fires no `click` events, so the listener runs only when the
button is enabled. -/
def clickDownloadBtn (currentPlatform rawInput : String) (s : UiState) :
    UiState :=
  if s.btnDisabled then s else startDownloadEntry currentPlatform rawInput s

/-- The URL input's `keypress` listener on Enter (`script.js:29-33`).  The
input element is never disabled, so this runs unconditionally. -/
def pressEnterInUrlInput (currentPlatform rawInput : String) (s : UiState) :
    UiState :=
  startDownloadEntry currentPlatform rawInput s

/-! ## File links (`renderDownloadLinks`, `script.js:193-202`)

Each file of a record is rendered as an anchor whose `href` is
`${apiUrl}/download-file/${platform}/${encodeURIComponent(file)}`.
`encodeURIComponent` is embedded per ECMA-262: characters in
`uriUnescaped` (alphanumeric and `- _ . ! ~ * ( )` and the apostrophe) pass
through; every other character is replaced by the `%XX` uppercase-hex
encoding of each byte of its UTF-8 form. -/

/-- The characters `encodeURIComponent` leaves unescaped (ECMA-262
`uriUnescaped`): ASCII letters, digits, and `- _ . ! ~ * ' ( )`. -/
def uriUnescaped (c : Char) : Bool :=
  (('A' ≤ c ∧ c ≤ 'Z') ∨ ('a' ≤ c ∧ c ≤ 'z') ∨ ('0' ≤ c ∧ c ≤ '9')) ∨
    c = '-' ∨ c = '_' ∨ c = '.' ∨ c = '!' ∨ c = '~' ∨ c = '*' ∨
    c = '\x27' ∨ c = '(' ∨ c = ')'

/-- Uppercase hexadecimal digit for `n < 16` (and `'0'` past the range). -/
def hexDigit (n : Nat) : Char :=
  "0123456789ABCDEF".toList.getD n '0'

/-- The UTF-8 bytes of one Unicode scalar value, as `Nat`s below 256. -/
def utf8Bytes (c : Char) : List Nat :=
  let n := c.toNat
  if n < 0x80 then [n]
  else if n < 0x800 then [0xC0 + n / 64, 0x80 + n % 64]
  else if n < 0x10000 then
    [0xE0 + n / 4096, 0x80 + n / 64 % 64, 0x80 + n % 64]
  else
    [0xF0 + n / 262144, 0x80 + n / 4096 % 64, 0x80 + n / 64 % 64,
     0x80 + n % 64]

/-- `%XX` escape sequence for one byte. -/
def percentByte (b : Nat) : List Char :=
  ['%', hexDigit (b / 16), hexDigit (b % 16)]

/-- ECMAScript `encodeURIComponent`. -/
def encodeURIComponent (s : String) : String :=
  String.mk (s.toList.flatMap fun c =>
    if uriUnescaped c then [c] else (utf8Bytes c).flatMap percentByte)

/-- The `href` of the anchor `renderDownloadLinks` (`script.js:196-200`)
emits for one file of a record: pure string formatting around
`encodeURIComponent`. -/
def resolveFileLink (apiUrl platform file : String) : String :=
  apiUrl ++ "/download-file/" ++ platform ++ "/" ++ encodeURIComponent file

/-! ## Startup load (`constructor`, `script.js:2-7`)

`this.downloads = JSON.parse(localStorage.getItem('downloads') || '[]')`.
`getItem` yields `null` when the key is absent; `null` and the empty string
are both falsy, so either is replaced by `'[]'`.  There is **no** `try`
around the `JSON.parse`: a malformed stored value makes the constructor
throw, and `init()` (bindEvents, list render, the initial log line) never
runs.  `JSON.parse` is embedded below as a fuel-indexed recursive-descent
parser of JSON values, returning `none` where `JSON.parse` throws.  Two
restrictions, irrelevant to the stored-history claims: numbers are modelled
as optionally signed digit runs (no fraction/exponent, no leading-zero
rejection), and `\u` string escapes are not decoded (parsing them fails). -/

/-- A JSON value, the result type of `JSON.parse`. -/
inductive Json where
  | null
  | bool (b : Bool)
  | num (n : Int)
  | str (s : String)
  | arr (elems : List Json)
  | obj (fields : List (String × Json))

/-- Drop leading JSON whitespace (space, tab, LF, CR). -/
def skipWs : List Char → List Char
  | [] => []
  | c :: cs =>
      if c = ' ' ∨ c = '\t' ∨ c = '\n' ∨ c = '\r' then skipWs cs else c :: cs

/-- Read a JSON string body after the opening quote: the decoded characters
and the remainder after the closing quote; `none` on an unterminated string
or unsupported escape. -/
def strChars : List Char → Option (List Char × List Char)
  | [] => none
  | c :: cs =>
      if c = '"' then some ([], cs)
      else if c = '\\' then
        match cs with
        | [] => none
        | e :: cs2 =>
            let esc : Option Char :=
              if e = '"' then some '"'
              else if e = '\\' then some '\\'
              else if e = '/' then some '/'
              else if e = 'b' then some '\x08'
              else if e = 'f' then some '\x0C'
              else if e = 'n' then some '\n'
              else if e = 'r' then some '\r'
              else if e = 't' then some '\t'
              else none
            match esc with
            | none => none
            | some d =>
                match strChars cs2 with
                | none => none
                | some (body, rest) => some (d :: body, rest)
      else
        match strChars cs with
        | none => none
        | some (body, rest) => some (c :: body, rest)

/-- Split a leading run of decimal digits from the rest. -/
def digitsSplit : List Char → List Char × List Char
  | [] => ([], [])
  | c :: cs =>
      if c.isDigit then
        let (ds, rest) := digitsSplit cs
        (c :: ds, rest)
      else ([], c :: cs)

/-- Numeric value of a digit run. -/
def digitsToNat (ds : List Char) : Nat :=
  ds.foldl (fun acc c => acc * 10 + (c.toNat - 48)) 0

/-- Parse a JSON number (restricted to optionally signed integers). -/
def parseNum (cs : List Char) : Option (Int × List Char) :=
  match cs with
  | '-' :: cs1 =>
      match digitsSplit cs1 with
      | ([], _) => none
      | (ds, rest) => some (-(digitsToNat ds : Int), rest)
  | _ =>
      match digitsSplit cs with
      | ([], _) => none
      | (ds, rest) => some ((digitsToNat ds : Int), rest)

mutual

/-- Parse one JSON value; `fuel` bounds nesting depth. -/
def parseVal : Nat → List Char → Option (Json × List Char)
  | 0, _ => none
  | fuel + 1, cs =>
      match skipWs cs with
      | [] => none
      | '{' :: cs1 =>
          (match skipWs cs1 with
           | '}' :: rest => some (.obj [], rest)
           | cs2 =>
               match parseMembers fuel cs2 with
               | none => none
               | some (fs, rest) => some (.obj fs, rest))
      | '[' :: cs1 =>
          (match skipWs cs1 with
           | ']' :: rest => some (.arr [], rest)
           | cs2 =>
               match parseElems fuel cs2 with
               | none => none
               | some (vs, rest) => some (.arr vs, rest))
      | '"' :: cs1 =>
          (match strChars cs1 with
           | none => none
           | some (body, rest) => some (.str (String.mk body), rest))
      | c :: cs1 =>
          if c = 'n' ∧ charsPrefix "ull".toList cs1 then
            some (.null, cs1.drop 3)
          else if c = 't' ∧ charsPrefix "rue".toList cs1 then
            some (.bool true, cs1.drop 3)
          else if c = 'f' ∧ charsPrefix "alse".toList cs1 then
            some (.bool false, cs1.drop 4)
          else if c = '-' ∨ c.isDigit then
            match parseNum (c :: cs1) with
            | none => none
            | some (n, rest) => some (.num n, rest)
          else none

/-- Parse the elements of a nonempty array body up to the closing `]`. -/
def parseElems : Nat → List Char → Option (List Json × List Char)
  | 0, _ => none
  | fuel + 1, cs =>
      match parseVal fuel cs with
      | none => none
      | some (v, rest) =>
          match skipWs rest with
          | ',' :: rest1 =>
              (match parseElems fuel rest1 with
               | none => none
               | some (vs, rest2) => some (v :: vs, rest2))
          | ']' :: rest1 => some ([v], rest1)
          | _ => none

/-- Parse the members of a nonempty object body up to the closing brace. -/
def parseMembers :
    Nat → List Char → Option (List (String × Json) × List Char)
  | 0, _ => none
  | fuel + 1, cs =>
      match skipWs cs with
      | '"' :: cs1 =>
          (match strChars cs1 with
           | none => none
           | some (key, rest) =>
               match skipWs rest with
               | ':' :: rest1 =>
                   (match parseVal fuel rest1 with
                    | none => none
                    | some (v, rest2) =>
                        match skipWs rest2 with
                        | ',' :: rest3 =>
                            (match parseMembers fuel rest3 with
                             | none => none
                             | some (fs, rest4) =>
                                 some ((String.mk key, v) :: fs, rest4))
                        | '}' :: rest3 => some ([(String.mk key, v)], rest3)
                        | _ => none)
               | _ => none)
      | _ => none

end

/-- `JSON.parse`: parse one value, require only whitespace after it;
`none` models a thrown `SyntaxError`. -/
def jsonParse (s : String) : Option Json :=
  match parseVal (s.length + 1) s.toList with
  | some (v, rest) => if skipWs rest = [] then some v else none
  | none => none

/-- The constructor's history load (`script.js:4`):
`JSON.parse(localStorage.getItem('downloads') || '[]')`.  `stored` is the
raw `getItem` result (`none` = key absent).  A `none` result means
`JSON.parse` threw, the constructor aborted, and `init()` never ran. -/
def loadDownloads (stored : Option String) : Option Json :=
  let raw := match stored with
    | none => "[]"
    | some s => if s = "" then "[]" else s
  jsonParse raw

/-! ## Helper lemmas -/

theorem addDownload_eq_take (ds : List DownloadData) (d : DownloadData) :
    addDownload ds d = (d :: ds).take 10 := by
  unfold addDownload
  dsimp only
  split
  · rfl
  · next h =>
    rw [List.take_of_length_le]
    omega

theorem addDownload_head (ds : List DownloadData) (d : DownloadData) :
    (addDownload ds d).head? = some d := by
  rw [addDownload_eq_take, List.take_succ_cons]
  rfl

theorem addDownload_len (ds : List DownloadData) (d : DownloadData) :
    (addDownload ds d).length ≤ 10 := by
  rw [addDownload_eq_take, List.length_take]
  omega

theorem jsTrim_of_all_whitespace (s : String)
    (h : ∀ c ∈ s.toList, jsIsWhitespace c) : jsTrim s = "" := by
  unfold jsTrim
  have h1 : s.toList.dropWhile jsIsWhitespace = [] :=
    List.dropWhile_eq_nil_iff.mpr h
  rw [h1]
  rfl

theorem hexDigit_safe (n : Nat) :
    hexDigit n ≠ '/' ∧ hexDigit n ≠ '?' ∧ hexDigit n ≠ '#' ∧
      hexDigit n ≠ '&' := by
  unfold hexDigit
  rcases Nat.lt_or_ge n 16 with h | h
  · interval_cases n <;> decide
  · rw [List.getD_eq_default]
    · decide
    · simpa using h

/-- A distinguishable history record (records differ in their title). -/
def sampleRecord (i : Nat) : DownloadData :=
  ⟨"r" ++ toString i, "spotify", "https://open.spotify.com/track/abc", none,
    [], "t"⟩

/-! ## The claims -/

/-- Claim C1, counterexample: with the stored history value `"["` —
present but not valid JSON — the load does **not** fail open to an empty
sequence: `JSON.parse` throws (modelled as `none`), so the claim that
loading never fails and initialization completes is false.  The constructor
has no `try` around `JSON.parse` (`script.js:4`). -/
theorem loadDownloads_corrupt_not_recovered :
    loadDownloads (some "[") = none ∧
      loadDownloads (some "[") ≠ some (Json.arr []) := by
  refine ⟨rfl, fun h => ?_⟩
  rw [show loadDownloads (some "[") = none from rfl] at h
  exact Option.noConfusion h

/-- Claim C1 (corrected): if the stored history value is absent or the
empty string, the in-memory history is the empty sequence and
initialization completes; otherwise the load is exactly `JSON.parse` of the
stored value, so a value that fails to deserialize propagates the parse
failure and initialization does not complete. -/
theorem load_absent_empty_corrupt_throws :
    loadDownloads none = some (Json.arr []) ∧
    loadDownloads (some "") = some (Json.arr []) ∧
    ∀ s : String, s ≠ "" → loadDownloads (some s) = jsonParse s := by
  refine ⟨rfl, rfl, fun s h => ?_⟩
  simp [loadDownloads, h]

/-- Witness for C1's theorem at the concrete stored value `"["`. -/
theorem load_absent_empty_corrupt_throws_witness :
    ("[" : String) ≠ "" ∧ loadDownloads (some "[") = jsonParse "[" :=
  ⟨by decide, load_absent_empty_corrupt_throws.2.2 "[" (by decide)⟩

/-- Claim C2, counterexample: from the initial state, a click with a valid
spotify URL starts a download (button disabled, one session active); while
that download is in progress, pressing Enter in the URL input — a user
entry point — is accepted and starts a second concurrent session, refuting
the claim that no entry point accepts a submission while not Idle. -/
theorem enter_key_starts_second_session :
    (clickDownloadBtn "spotify" "https://open.spotify.com/track/abc"
      ⟨false, 0, []⟩).btnDisabled = true ∧
    (clickDownloadBtn "spotify" "https://open.spotify.com/track/abc"
      ⟨false, 0, []⟩).activeSessions = 1 ∧
    (pressEnterInUrlInput "spotify" "https://open.spotify.com/track/abc"
      (clickDownloadBtn "spotify" "https://open.spotify.com/track/abc"
        ⟨false, 0, []⟩)).activeSessions = 2 := by
  decide

/-- Claim C2 (corrected): while a download is in progress the button-click
entry point accepts no new submission (a disabled button fires no click
event), but the Enter-key entry point runs `startDownload` unguarded, so
any valid submission starts one more concurrent session regardless of the
in-progress state. -/
theorem gating_click_only :
    (∀ (p u : String) (s : UiState), s.btnDisabled = true →
        clickDownloadBtn p u s = s) ∧
    (∀ (p u : String) (s : UiState),
        jsTrim u ≠ "" → validateUrl p (jsTrim u) = true →
        (pressEnterInUrlInput p u s).activeSessions =
          s.activeSessions + 1) := by
  constructor
  · intro p u s h
    simp [clickDownloadBtn, h]
  · intro p u s h1 h2
    simp [pressEnterInUrlInput, startDownloadEntry, h1, h2]

/-- Witness for C2's theorem at a concrete busy state. -/
theorem gating_click_only_witness :
    clickDownloadBtn "spotify" "x" ⟨true, 1, []⟩ = ⟨true, 1, []⟩ ∧
    (pressEnterInUrlInput "spotify" "https://open.spotify.com/track/abc"
      ⟨true, 1, []⟩).activeSessions = 2 :=
  ⟨gating_click_only.1 "spotify" "x" ⟨true, 1, []⟩ rfl,
   gating_click_only.2 "spotify" "https://open.spotify.com/track/abc"
     ⟨true, 1, []⟩ (by decide) (by decide)⟩

/-- Claim C3, counterexample: for the scripted run (`processing`,
`processing`, then `completed` with title `"Song"` and files
`["song.mp3"]`) the poll loop emits **four** status events — two info and
two success (`script.js:128-129` logs two success lines) — not the claimed
three. -/
theorem poll_run_emits_four_events :
    (pollDownloadStatus "spotify" "https://open.spotify.com/track/abc" "t"
      [.ok ⟨"processing", none, none, none, none⟩,
       .ok ⟨"processing", none, none, none, none⟩,
       .ok ⟨"completed", some "Song", none, some ["song.mp3"],
         none⟩]).events.map StatusEvent.severity =
      [.info, .info, .success, .success] ∧
    (pollDownloadStatus "spotify" "https://open.spotify.com/track/abc" "t"
      [.ok ⟨"processing", none, none, none, none⟩,
       .ok ⟨"processing", none, none, none, none⟩,
       .ok ⟨"completed", some "Song", none, some ["song.mp3"],
         none⟩]).events.length ≠ 3 := by
  decide

/-- Claim C3 (corrected): for an accepted valid submission whose polling
observes `processing` twice then `completed` with title `"Song"` and files
`["song.mp3"]`, exactly one record
`{title: "Song", platform: "spotify", files: ["song.mp3"]}` is committed
and sits at the history head, the input is cleared and the orchestrator
returns to Idle — but **four** status events are emitted during polling:
two info and two success. -/
theorem poll_run_record_and_events (rawInput ts id : String)
    (downloads : List DownloadData)
    (h1 : jsTrim rawInput ≠ "")
    (h2 : validateUrl "spotify" (jsTrim rawInput) = true) :
    startDownload "spotify" rawInput (.ok id)
      [.ok ⟨"processing", none, none, none, none⟩,
       .ok ⟨"processing", none, none, none, none⟩,
       .ok ⟨"completed", some "Song", none, some ["song.mp3"], none⟩]
      ts downloads =
      { events := [⟨"[SPOTIFY] processing", .info⟩,
                   ⟨"[SPOTIFY] processing", .info⟩,
                   ⟨"[SUCCESS] Download completed!", .success⟩,
                   ⟨"Files ready for download", .success⟩]
        downloads := addDownload downloads
          ⟨"Song", "spotify", jsTrim rawInput, none, ["song.mp3"], ts⟩
        urlCleared := true
        networkCalled := true
        btnStillDisabled := false } ∧
    (addDownload downloads
        ⟨"Song", "spotify", jsTrim rawInput, none, ["song.mp3"], ts⟩).head? =
      some ⟨"Song", "spotify", jsTrim rawInput, none, ["song.mp3"], ts⟩ := by
  constructor
  · simp [startDownload, h1, h2, pollDownloadStatus, buildDownloadData,
      show jsToUpperCase "spotify" = "SPOTIFY" from rfl]
  · exact addDownload_head downloads _

/-- Witness for C3's theorem on the spec's end-to-end example. -/
theorem poll_run_record_and_events_witness :
    jsTrim "https://open.spotify.com/track/abc" ≠ "" ∧
    validateUrl "spotify" (jsTrim "https://open.spotify.com/track/abc") =
      true ∧
    (startDownload "spotify" "https://open.spotify.com/track/abc" (.ok "1")
      [.ok ⟨"processing", none, none, none, none⟩,
       .ok ⟨"processing", none, none, none, none⟩,
       .ok ⟨"completed", some "Song", none, some ["song.mp3"], none⟩]
      "t" []).downloads =
      [⟨"Song", "spotify", "https://open.spotify.com/track/abc", none,
        ["song.mp3"], "t"⟩] :=
  ⟨by decide, by decide, by
    have h := (poll_run_record_and_events "https://open.spotify.com/track/abc"
      "t" "1" [] (by decide) (by decide)).1
    rw [h]
    rfl⟩

/-- Claim C4 (confirmed): for every starting history and committed record,
the stored sequence after `addDownload` has length at most 10, the new
record is at the head, and overflow is truncated from the tail (the result
is the first 10 of the new head followed by the old sequence); after 11
commits to an empty store the first record is absent and the 11th is the
head. -/
theorem history_bounded_newest_first :
    (∀ (ds : List DownloadData) (d : DownloadData),
        (addDownload ds d).length ≤ 10 ∧
        (addDownload ds d).head? = some d ∧
        addDownload ds d = (d :: ds).take 10) ∧
    (List.foldl addDownload []
        ((List.range 11).map fun i => sampleRecord (i + 1)) =
      [sampleRecord 11, sampleRecord 10, sampleRecord 9, sampleRecord 8,
       sampleRecord 7, sampleRecord 6, sampleRecord 5, sampleRecord 4,
       sampleRecord 3, sampleRecord 2] ∧
     (List.foldl addDownload []
        ((List.range 11).map fun i => sampleRecord (i + 1))).contains
          (sampleRecord 1) = false) :=
  ⟨fun ds d =>
    ⟨addDownload_len ds d, addDownload_head ds d, addDownload_eq_take ds d⟩,
   by decide⟩

/-- Claim C5 (confirmed): when a status fetch itself fails, the poll loop
logs one error and terminates at once — the remaining scripted responses
are never consulted (no retry) — no record is committed, and the full
session ends with the downloads unchanged and the button re-enabled
(orchestrator back to Idle). -/
theorem query_error_short_circuits (currentPlatform rawInput ts msg : String)
    (rest : List FetchResult) (id : String) (downloads : List DownloadData)
    (h1 : jsTrim rawInput ≠ "")
    (h2 : validateUrl currentPlatform (jsTrim rawInput) = true) :
    pollDownloadStatus currentPlatform (jsTrim rawInput) ts
        (.fail msg :: rest) =
      ⟨[⟨"Status check failed: " ++ msg, .error⟩], none, true⟩ ∧
    startDownload currentPlatform rawInput (.ok id) (.fail msg :: rest)
        ts downloads =
      ⟨[⟨"Status check failed: " ++ msg, .error⟩], downloads, false, true,
        false⟩ := by
  constructor
  · rfl
  · simp [startDownload, h1, h2, pollDownloadStatus]

/-- Witness for C5's theorem at a concrete failing fetch. -/
theorem query_error_short_circuits_witness :
    jsTrim "https://open.spotify.com/track/abc" ≠ "" ∧
    validateUrl "spotify" (jsTrim "https://open.spotify.com/track/abc") =
      true ∧
    startDownload "spotify" "https://open.spotify.com/track/abc" (.ok "1")
        [.fail "Failed to fetch"] "t" [] =
      ⟨[⟨"Status check failed: Failed to fetch", .error⟩], [], false, true,
        false⟩ :=
  ⟨by decide, by decide,
   (query_error_short_circuits "spotify" "https://open.spotify.com/track/abc"
      "t" "Failed to fetch" [] "1" [] (by decide) (by decide)).2⟩

/-- Claim C6 (confirmed): the file-link builder is pure formatting around
`encodeURIComponent`, and the encoded filename part contains none of the
path- or query-significant characters `/`, `?`, `#`, `&` — each is
percent-encoded, so the filename cannot alter the URL's path or query
structure. -/
theorem resolveFileLink_percent_encodes (apiUrl platform file : String) :
    resolveFileLink apiUrl platform file =
      apiUrl ++ "/download-file/" ++ platform ++ "/" ++
        encodeURIComponent file ∧
    ∀ c ∈ (encodeURIComponent file).toList,
      c ≠ '/' ∧ c ≠ '?' ∧ c ≠ '#' ∧ c ≠ '&' := by
  refine ⟨rfl, fun c hc => ?_⟩
  have hmem : c ∈ file.toList.flatMap fun a =>
      if uriUnescaped a then [a] else (utf8Bytes a).flatMap percentByte := hc
  rw [List.mem_flatMap] at hmem
  obtain ⟨a, -, ha⟩ := hmem
  by_cases hu : uriUnescaped a
  · rw [if_pos hu] at ha
    rw [List.mem_singleton] at ha
    subst ha
    refine ⟨?_, ?_, ?_, ?_⟩ <;> rintro rfl <;> revert hu <;> decide
  · rw [if_neg hu, List.mem_flatMap] at ha
    obtain ⟨b, -, hb⟩ := ha
    unfold percentByte at hb
    rw [List.mem_cons, List.mem_cons, List.mem_singleton] at hb
    rcases hb with rfl | rfl | rfl
    · decide
    · exact hexDigit_safe _
    · exact hexDigit_safe _

/-- Witness for C6's theorem: the membership hypothesis of its second
conjunct discharged at the percent sign of a concrete encoded filename. -/
theorem resolveFileLink_percent_encodes_witness :
    '%' ∈ (encodeURIComponent "a/b.mp3").toList ∧
    ('%' ≠ '/' ∧ '%' ≠ '?' ∧ '%' ≠ '#' ∧ '%' ≠ '&') :=
  ⟨by decide,
   (resolveFileLink_percent_encodes "http://localhost:5000" "spotify"
      "a/b.mp3").2 '%' (by decide)⟩

/-- Claim C7 (confirmed): a submission whose input field is empty (trims to
the empty string) logs exactly one error event, makes no network call,
leaves the downloads unchanged, clears nothing and leaves the button
enabled — the orchestrator stays Idle with no other state change. -/
theorem empty_url_rejected_idle (currentPlatform rawInput : String)
    (submit : SubmitResult) (responses : List FetchResult) (ts : String)
    (downloads : List DownloadData)
    (h : jsTrim rawInput = "") :
    startDownload currentPlatform rawInput submit responses ts downloads =
      ⟨[⟨"Please enter a URL", .error⟩], downloads, false, false, false⟩ := by
  simp [startDownload, h]

/-- Witness for C7's theorem at the empty input. -/
theorem empty_url_rejected_idle_witness :
    jsTrim "" = "" ∧
    startDownload "spotify" "" (.ok "1") [] "t" [] =
      ⟨[⟨"Please enter a URL", .error⟩], [], false, false, false⟩ :=
  ⟨rfl, empty_url_rejected_idle "spotify" "" (.ok "1") [] "t" [] rfl⟩

/-- Claim C8 (confirmed): the `youtube-audio` and `youtube-video` entries of
the `patterns` table are the same regex, so the two acceptance predicates
agree on every URL. -/
theorem youtube_audio_video_validate_agree (url : String) :
    validateUrl "youtube-audio" url = validateUrl "youtube-video" url := rfl

/-- Claim C9 (confirmed): the record built from a completed status
totalizes its optional fields — an absent title becomes
`"Downloaded Media"` and absent files become the empty sequence — and it is
exactly the record the poll loop commits on a `completed` status. -/
theorem completed_record_totalized (currentPlatform url ts : String)
    (body : StatusResponse) (rest : List FetchResult) :
    (body.title = none →
      (buildDownloadData currentPlatform url ts body).title =
        "Downloaded Media") ∧
    (body.files = none →
      (buildDownloadData currentPlatform url ts body).files = []) ∧
    (body.status = "completed" →
      (pollDownloadStatus currentPlatform url ts (.ok body :: rest)).committed =
        some (buildDownloadData currentPlatform url ts body)) := by
  refine ⟨fun h => ?_, fun h => ?_, fun h => ?_⟩
  · simp [buildDownloadData, h]
  · simp [buildDownloadData, h]
  · simp [pollDownloadStatus, h]

/-- Witness for C9's theorem at a completed status with no title and no
files. -/
theorem completed_record_totalized_witness :
    (buildDownloadData "spotify" "u" "t"
      ⟨"completed", none, none, none, none⟩).title = "Downloaded Media" ∧
    (buildDownloadData "spotify" "u" "t"
      ⟨"completed", none, none, none, none⟩).files = ([] : List String) ∧
    (pollDownloadStatus "spotify" "u" "t"
        [.ok ⟨"completed", none, none, none, none⟩]).committed =
      some (buildDownloadData "spotify" "u" "t"
        ⟨"completed", none, none, none, none⟩) :=
  ⟨(completed_record_totalized "spotify" "u" "t"
      ⟨"completed", none, none, none, none⟩ []).1 rfl,
   (completed_record_totalized "spotify" "u" "t"
      ⟨"completed", none, none, none, none⟩ []).2.1 rfl,
   (completed_record_totalized "spotify" "u" "t"
      ⟨"completed", none, none, none, none⟩ []).2.2 rfl⟩

/-- Claim C10 (confirmed): an input consisting only of whitespace is
trimmed before the emptiness check, so it is rejected exactly as an empty
URL is — one error event, no platform-pattern validation observable in the
result, no network call — and the outcome coincides with that of the empty
input. -/
theorem whitespace_rejected_as_empty (currentPlatform rawInput : String)
    (submit : SubmitResult) (responses : List FetchResult) (ts : String)
    (downloads : List DownloadData)
    (h : ∀ c ∈ rawInput.toList, jsIsWhitespace c) :
    startDownload currentPlatform rawInput submit responses ts downloads =
      ⟨[⟨"Please enter a URL", .error⟩], downloads, false, false, false⟩ ∧
    startDownload currentPlatform rawInput submit responses ts downloads =
      startDownload currentPlatform "" submit responses ts downloads := by
  have h0 := jsTrim_of_all_whitespace rawInput h
  constructor
  · simp [startDownload, h0]
  · simp [startDownload, h0, show jsTrim "" = "" from rfl]

/-- Witness for C10's theorem at a concrete all-whitespace input. -/
theorem whitespace_rejected_as_empty_witness :
    (∀ c ∈ ("  \t\n  " : String).toList, jsIsWhitespace c) ∧
    startDownload "spotify" "  \t\n  " (.ok "1") [] "t" [] =
      ⟨[⟨"Please enter a URL", .error⟩], [], false, false, false⟩ :=
  ⟨by decide,
   (whitespace_rejected_as_empty "spotify" "  \t\n  " (.ok "1") [] "t" []
      (by decide)).1⟩

end MediaDownloader
